import Mathlib

/-!
Shallow embedding of the choropleth-map data pipeline of `src/app.py`.

The program loads a patient table (`df`) and a departmental boundary table
(`gdf`), uppercases the department-name column of each (lines 27-28), and on
the map page (lines 124-145):
  * filters the patient table by the selected diagnosis and gender, where the
    sentinel `"Todos"` means "no filter" (lines 124-128);
  * groups the filtered rows by department, computing a row count, mean age
    and mean visit frequency (lines 131-135);
  * left-joins the boundary table with the grouped aggregate on the
    department name (line 138);
  * replaces the missing numeric values of unmatched boundaries with 0
    (lines 140-142).

Tables are embedded as lists of records, numeric columns as `ℚ`, and the
missing values introduced by the left join as `Option`.
-/

namespace AppPy

/-- Patient record: one row of `salud_pacientes.csv` as used by the pipeline
(columns `ID`, `Departamento`, `Edad`, `Genero`, `Diagnóstico`,
`Frecuencia_Visitas`; the latitude/longitude columns are never read by the
pipeline and are omitted). -/
structure Patient where
  id : Nat
  departamento : String
  edad : ℚ
  genero : String
  diagnostico : String
  frecuencia_Visitas : ℚ
deriving DecidableEq, Repr

/-- Boundary record: one row of the departmental shapefile, a department name
(column `dpto_cnmbr`) and an opaque geometry payload. -/
structure Boundary where
  dpto_cnmbr : String
  geometry : String
deriving DecidableEq, Repr

/-- Derived aggregate row: one row of `df_grouped` (lines 131-135) after the
rename of `ID` to `Num_Pacientes`. -/
structure AggRow where
  departamento : String
  num_Pacientes : Nat
  edad : ℚ
  frecuencia_Visitas : ℚ
deriving DecidableEq, Repr

/-- Merged row: one row of `gdf_merge` (line 138) before the `fillna(0)`
loop; the three numeric columns of an unmatched boundary are `none` (NaN). -/
structure MergedRow where
  dpto_cnmbr : String
  geometry : String
  num_Pacientes : Option Nat
  edad : Option ℚ
  frecuencia_Visitas : Option ℚ
deriving DecidableEq, Repr

/-- Final row: one row of `gdf_merge` after the `fillna(0)` loop
(lines 140-142), the joined geometry document handed to the renderer. -/
structure FinalRow where
  dpto_cnmbr : String
  geometry : String
  num_Pacientes : Nat
  edad : ℚ
  frecuencia_Visitas : ℚ
deriving DecidableEq, Repr

/-- Uppercasing of a string, `pandas.Series.str.upper` applied to one cell
(`Char.toUpper` on every character). -/
def upper (s : String) : String := ⟨s.data.map Char.toUpper⟩

/-- Line 28: `df["Departamento"] = df["Departamento"].str.upper()`. -/
def normalizeDf (df : List Patient) : List Patient :=
  df.map fun p => { p with departamento := upper p.departamento }

/-- Line 27: `gdf["dpto_cnmbr"] = gdf["dpto_cnmbr"].str.upper()`. -/
def normalizeGdf (gdf : List Boundary) : List Boundary :=
  gdf.map fun b => { b with dpto_cnmbr := upper b.dpto_cnmbr }

/-- Lines 124-128: start from a copy of `df` and keep the rows whose
diagnosis (resp. gender) equals the selection, unless the selection is the
sentinel `"Todos"`. -/
def df_filtrado (df : List Patient) (diagnostico_sel genero_sel : String) :
    List Patient :=
  let d := df
  let d := if diagnostico_sel ≠ "Todos"
    then d.filter (fun p => p.diagnostico = diagnostico_sel) else d
  if genero_sel ≠ "Todos"
    then d.filter (fun p => p.genero = genero_sel) else d

/-- Code-point comparison of character lists, the order Python uses to
compare strings. -/
def charListLe : List Char → List Char → Bool
  | [], _ => true
  | _ :: _, [] => false
  | a :: as, b :: bs =>
    if a.val < b.val then true
    else if b.val < a.val then false
    else charListLe as bs

/-- Code-point comparison of strings (Boolean, so that it evaluates inside
the kernel). -/
def strLeb (a b : String) : Bool := charListLe a.data b.data

/-- Group keys of `groupby("Departamento")`: the distinct department names of
the (filtered) patient table, sorted as pandas returns them. -/
def groupKeys (ps : List Patient) : List String :=
  List.insertionSort (fun a b => strLeb a b = true)
    ((ps.map Patient.departamento).dedup)

/-- Lines 131-135: `df_filtrado.groupby("Departamento").agg({"ID": "count",
"Edad": "mean", "Frecuencia_Visitas": "mean"})`, renamed to `Num_Pacientes`.
Every `ID` cell is present, so the count is the row count of the group; the
means are arithmetic means over the group. -/
def df_grouped (ps : List Patient) : List AggRow :=
  (groupKeys ps).map fun d =>
    let rows := ps.filter fun p => p.departamento = d
    { departamento := d
      num_Pacientes := rows.length
      edad := (rows.map Patient.edad).sum / (rows.length : ℚ)
      frecuencia_Visitas :=
        (rows.map Patient.frecuencia_Visitas).sum / (rows.length : ℚ) }

/-- Line 138: `gdf.merge(df_grouped, left_on="dpto_cnmbr",
right_on="Departamento", how="left")`. Every left (boundary) row produces
one output row per matching aggregate row, or a single row with missing
(NaN) numeric fields when nothing matches. -/
def gdf_merge (gdf : List Boundary) (grouped : List AggRow) : List MergedRow :=
  gdf.flatMap fun b =>
    match grouped.filter (fun g => g.departamento = b.dpto_cnmbr) with
    | [] => [{ dpto_cnmbr := b.dpto_cnmbr, geometry := b.geometry,
               num_Pacientes := none, edad := none,
               frecuencia_Visitas := none }]
    | ms => ms.map fun g =>
        { dpto_cnmbr := b.dpto_cnmbr, geometry := b.geometry,
          num_Pacientes := some g.num_Pacientes, edad := some g.edad,
          frecuencia_Visitas := some g.frecuencia_Visitas }

/-- Lines 140-142: `gdf_merge[col] = gdf_merge[col].fillna(0)` for the three
numeric columns. -/
def fillZero (rows : List MergedRow) : List FinalRow :=
  rows.map fun r =>
    { dpto_cnmbr := r.dpto_cnmbr, geometry := r.geometry,
      num_Pacientes := r.num_Pacientes.getD 0,
      edad := r.edad.getD 0,
      frecuencia_Visitas := r.frecuencia_Visitas.getD 0 }

/-- The whole pipeline on raw source tables: the load-time normalization of
lines 27-28 followed by the map-page computation of lines 124-142. -/
def pipeline (df : List Patient) (gdf : List Boundary)
    (diagnostico_sel genero_sel : String) : List FinalRow :=
  fillZero (gdf_merge (normalizeGdf gdf)
    (df_grouped (df_filtrado (normalizeDf df) diagnostico_sel genero_sel)))

/-- The process-wide state: the two tables held in the globals `df` and
`gdf` after the load-time normalization. -/
structure AppState where
  df : List Patient
  gdf : List Boundary
deriving DecidableEq, Repr

/-- One invocation of the map-page computation (lines 124-142) on the
process state, returning the joined document together with the state of the
two global tables afterwards. Every step binds a fresh derived value
(`df.copy()`, the filtered selections, the new frame returned by `merge`);
the in-place `fillna` writes only into the fresh merged frame, so the
globals are returned as they were. -/
def runPipeline (s : AppState) (diagnostico_sel genero_sel : String) :
    List FinalRow × AppState :=
  let filtered := df_filtrado s.df diagnostico_sel genero_sel
  let grouped := df_grouped filtered
  let merged := gdf_merge s.gdf grouped
  (fillZero merged, s)

/-- Patient table of the spec's concrete scenario (§8.6). The scenario fixes
department, age, diagnosis and visits; ids and genders are arbitrary since
the scenario filters genders with the sentinel. -/
def scenDf : List Patient :=
  [⟨1, "CUNDINAMARCA", 30, "Femenino", "Asma", 2⟩,
   ⟨2, "CUNDINAMARCA", 50, "Masculino", "Diabetes", 5⟩]

/-- Boundary table of the spec's concrete scenario (§8.6). -/
def scenGdf : List Boundary :=
  [⟨"CUNDINAMARCA", "G1"⟩, ⟨"META", "G2"⟩]

/-- Patient table with a department name in capitals, for the spec's
case-normalization example (§8.4). -/
def mixDf : List Patient :=
  [⟨7, "ANTIOQUIA", 41, "Otro", "Asma", 3⟩]

/-- Boundary table with the same department in mixed case (§8.4). -/
def mixGdf : List Boundary :=
  [⟨"Antioquia", "GA"⟩]

/-! Lemmas about the grouping step. -/

/-- The group keys are exactly the department names occurring in the table. -/
lemma mem_groupKeys {ps : List Patient} {k : String} :
    k ∈ groupKeys ps ↔ ∃ p ∈ ps, p.departamento = k := by
  simp [groupKeys, List.mem_insertionSort, List.mem_dedup, List.mem_map]

/-- The group keys are pairwise distinct. -/
lemma groupKeys_nodup (ps : List Patient) : (groupKeys ps).Nodup :=
  (List.perm_insertionSort _ _).nodup_iff.mpr (List.nodup_dedup _)

/-- The department column of the grouped table is the key list. -/
lemma df_grouped_map_key (ps : List Patient) :
    (df_grouped ps).map AggRow.departamento = groupKeys ps := by
  simp [df_grouped, Function.comp_def]

/-- The grouped table has pairwise distinct department keys. -/
lemma df_grouped_keys_nodup (ps : List Patient) :
    ((df_grouped ps).map AggRow.departamento).Nodup := by
  rw [df_grouped_map_key]; exact groupKeys_nodup ps

/-- Each grouped row's count is the number of table rows with its key. -/
lemma df_grouped_count {ps : List Patient} {a : AggRow}
    (ha : a ∈ df_grouped ps) :
    a.num_Pacientes = (ps.filter fun p => p.departamento = a.departamento).length := by
  obtain ⟨d, _, rfl⟩ := List.mem_map.mp ha
  rfl

/-- Each grouped row's key is the department of some table row. -/
lemma df_grouped_key_mem {ps : List Patient} {a : AggRow}
    (ha : a ∈ df_grouped ps) : ∃ p ∈ ps, p.departamento = a.departamento := by
  obtain ⟨d, hd, rfl⟩ := List.mem_map.mp ha
  exact mem_groupKeys.mp hd

/-- Conversely, every key occurring in the table owns a grouped row. -/
lemma exists_agg_of_key {ps : List Patient} {k : String}
    (hk : k ∈ groupKeys ps) : ∃ a ∈ df_grouped ps, a.departamento = k := by
  have : k ∈ (df_grouped ps).map AggRow.departamento := by
    rw [df_grouped_map_key]; exact hk
  obtain ⟨a, ha, hak⟩ := List.mem_map.mp this
  exact ⟨a, ha, hak⟩

/-- Every grouped row counts at least one table row. -/
lemma df_grouped_count_pos {ps : List Patient} {a : AggRow}
    (ha : a ∈ df_grouped ps) : 1 ≤ a.num_Pacientes := by
  obtain ⟨p, hp, hpd⟩ := df_grouped_key_mem ha
  rw [df_grouped_count ha]
  have : p ∈ ps.filter fun q => q.departamento = a.departamento :=
    List.mem_filter.mpr ⟨hp, by simp [hpd]⟩
  exact List.length_pos_of_mem this

/-- Filtering only discards rows. -/
lemma mem_df_filtrado {ps : List Patient} {d g : String} {q : Patient}
    (hq : q ∈ df_filtrado ps d g) : q ∈ ps := by
  unfold df_filtrado at hq
  split at hq <;> split at hq <;>
    simp only [List.mem_filter] at hq <;> tauto

/-! Lemmas about the left join. -/

/-- Under pairwise distinct keys, filtering a table by one key yields the
first hit or nothing. -/
lemma filter_key_eq_find {l : List AggRow}
    (h : (l.map AggRow.departamento).Nodup) (k : String) :
    l.filter (fun g => g.departamento = k) =
      (l.find? (fun g => g.departamento = k)).elim [] (fun g => [g]) := by
  induction l with
  | nil => rfl
  | cons a l ih =>
    rw [List.map_cons, List.nodup_cons] at h
    obtain ⟨ha, hl⟩ := h
    by_cases hk : a.departamento = k
    · have ht : l.filter (fun g => g.departamento = k) = [] := by
        refine List.filter_eq_nil_iff.mpr ?_
        intro g hg
        simp only [decide_eq_true_eq]
        intro hgk
        exact ha (by rw [hk, ← hgk]; exact List.mem_map_of_mem _ hg)
      simp [List.filter_cons, List.find?_cons, hk, ht]
    · simp [List.filter_cons, List.find?_cons, hk, ih hl]

/-- With pairwise distinct aggregate keys (always the case for a `groupby`
result), the left join produces, for each boundary row, the single matching
aggregate row or a missing-valued row. -/
lemma gdf_merge_eq_map {gdf : List Boundary} {grouped : List AggRow}
    (h : (grouped.map AggRow.departamento).Nodup) :
    gdf_merge gdf grouped = gdf.map fun b =>
      (grouped.find? (fun g => g.departamento = b.dpto_cnmbr)).elim
        { dpto_cnmbr := b.dpto_cnmbr, geometry := b.geometry,
          num_Pacientes := none, edad := none, frecuencia_Visitas := none }
        (fun g =>
          { dpto_cnmbr := b.dpto_cnmbr, geometry := b.geometry,
            num_Pacientes := some g.num_Pacientes, edad := some g.edad,
            frecuencia_Visitas := some g.frecuencia_Visitas }) := by
  unfold gdf_merge
  induction gdf with
  | nil => rfl
  | cons b gdf ih =>
    rw [List.flatMap_cons, List.map_cons, ih]
    rw [filter_key_eq_find h b.dpto_cnmbr]
    cases hf : grouped.find? (fun g => g.departamento = b.dpto_cnmbr) <;> simp

/-- The pipeline, row by row: each normalized boundary row becomes the
zero-filled row when its department has no aggregate, and carries the unique
aggregate's statistics otherwise. -/
lemma pipeline_eq_map (df : List Patient) (gdf : List Boundary)
    (d g : String) :
    pipeline df gdf d g = (normalizeGdf gdf).map fun b =>
      ((df_grouped (df_filtrado (normalizeDf df) d g)).find?
          (fun a => a.departamento = b.dpto_cnmbr)).elim
        { dpto_cnmbr := b.dpto_cnmbr, geometry := b.geometry,
          num_Pacientes := 0, edad := 0, frecuencia_Visitas := 0 }
        (fun a =>
          { dpto_cnmbr := b.dpto_cnmbr, geometry := b.geometry,
            num_Pacientes := a.num_Pacientes, edad := a.edad,
            frecuencia_Visitas := a.frecuencia_Visitas }) := by
  unfold pipeline fillZero
  rw [gdf_merge_eq_map (df_grouped_keys_nodup _), List.map_map]
  refine List.map_congr_left ?_
  intro b _
  cases hf : (df_grouped (df_filtrado (normalizeDf df) d g)).find?
      (fun a => a.departamento = b.dpto_cnmbr) <;>
    simp [hf, Function.comp]

/-- A department has no aggregate row exactly when no patient row carries it. -/
lemma find_agg_eq_none_iff {ps : List Patient} {k : String} :
    (df_grouped ps).find? (fun a => a.departamento = k) = none ↔
      ∀ p ∈ ps, p.departamento ≠ k := by
  rw [List.find?_eq_none]
  constructor
  · intro h p hp hk
    obtain ⟨a, ha, hak⟩ := exists_agg_of_key (mem_groupKeys.mpr ⟨p, hp, hk⟩)
    exact h a ha (by simp [hak])
  · intro h a ha
    simp only [decide_eq_true_eq]
    intro hak
    obtain ⟨p, hp, hpd⟩ := df_grouped_key_mem ha
    exact h p hp (hpd.trans hak)

/-! Claims. -/

/-- C1 (join completeness): for every patient table, boundary table and
filter selection, the joined document has exactly one row per boundary row,
in order, and each row carries the boundary's (normalized) department name
and its geometry; in particular the row count equals the boundary row
count. Proved without any uniqueness hypothesis: the right side of the join
is a `groupby` result, whose keys are distinct by construction. -/
theorem join_completeness (df : List Patient) (gdf : List Boundary)
    (diagnostico_sel genero_sel : String) :
    (pipeline df gdf diagnostico_sel genero_sel).map
        (fun r => (r.dpto_cnmbr, r.geometry)) =
      gdf.map (fun b => (upper b.dpto_cnmbr, b.geometry)) ∧
    (pipeline df gdf diagnostico_sel genero_sel).length = gdf.length := by
  constructor
  · rw [pipeline_eq_map]
    unfold normalizeGdf
    rw [List.map_map, List.map_map]
    refine List.map_congr_left ?_
    intro b _
    cases hf : (df_grouped (df_filtrado (normalizeDf df) diagnostico_sel
        genero_sel)).find? (fun a => a.departamento = upper b.dpto_cnmbr) <;>
      simp [hf, Function.comp]
  · rw [pipeline_eq_map]
    simp [normalizeGdf]

/-- C2 (default-fill invariant): every joined row whose department matched
no filtered patient record has patient count 0, mean age 0 and mean visit
frequency 0 — never missing. -/
theorem default_fill (df : List Patient) (gdf : List Boundary)
    (diagnostico_sel genero_sel : String) (r : FinalRow)
    (hr : r ∈ pipeline df gdf diagnostico_sel genero_sel)
    (hnm : ∀ p ∈ df_filtrado (normalizeDf df) diagnostico_sel genero_sel,
      p.departamento ≠ r.dpto_cnmbr) :
    r.num_Pacientes = 0 ∧ r.edad = 0 ∧ r.frecuencia_Visitas = 0 := by
  rw [pipeline_eq_map] at hr
  obtain ⟨b, _, hbr⟩ := List.mem_map.mp hr
  cases hf : (df_grouped (df_filtrado (normalizeDf df) diagnostico_sel
      genero_sel)).find? (fun a => a.departamento = b.dpto_cnmbr) with
  | none =>
    rw [hf] at hbr
    subst hbr
    simp
  | some a =>
    exfalso
    have hak : a.departamento = b.dpto_cnmbr := by
      simpa using List.find?_some hf
    obtain ⟨p, hp, hpd⟩ := df_grouped_key_mem (List.mem_of_find?_eq_some hf)
    rw [hf] at hbr
    subst hbr
    exact hnm p hp (by simp [hpd, hak])

/-- C8 (determinism): the map-page computation applied to two process states
holding equal patient and boundary tables, with the same filter selections,
returns equal joined documents: the output is a function of the tables and
the selections only. -/
theorem pipeline_deterministic (s₁ s₂ : AppState)
    (diagnostico_sel genero_sel : String)
    (hdf : s₁.df = s₂.df) (hgdf : s₁.gdf = s₂.gdf) :
    (runPipeline s₁ diagnostico_sel genero_sel).1 =
      (runPipeline s₂ diagnostico_sel genero_sel).1 := by
  unfold runPipeline
  rw [hdf, hgdf]

/-- Witness for C8 at the scenario tables. -/
theorem pipeline_deterministic_witness :
    (runPipeline ⟨scenDf, scenGdf⟩ "Todos" "Todos").1 =
      (runPipeline ⟨scenDf, scenGdf⟩ "Todos" "Todos").1 :=
  pipeline_deterministic ⟨scenDf, scenGdf⟩ ⟨scenDf, scenGdf⟩
    "Todos" "Todos" rfl rfl

/-- C9 (frame property): one invocation of the map-page computation returns
the process state unchanged — the two source tables after the invocation are
the tables before it, and the joined document is computed from fresh derived
values only. -/
theorem frame_preservation (s : AppState)
    (diagnostico_sel genero_sel : String) :
    (runPipeline s diagnostico_sel genero_sel).2 = s ∧
    (runPipeline s diagnostico_sel genero_sel).1 =
      fillZero (gdf_merge s.gdf
        (df_grouped (df_filtrado s.df diagnostico_sel genero_sel))) :=
  ⟨rfl, rfl⟩

/-- C10 (count discrimination): in the joined document, a row's patient
count is 0 exactly when no filtered patient record matched its department,
and at least 1 exactly when one did; counts are natural numbers. -/
theorem count_discrimination (df : List Patient) (gdf : List Boundary)
    (diagnostico_sel genero_sel : String) (r : FinalRow)
    (hr : r ∈ pipeline df gdf diagnostico_sel genero_sel) :
    (r.num_Pacientes = 0 ↔
      ∀ p ∈ df_filtrado (normalizeDf df) diagnostico_sel genero_sel,
        p.departamento ≠ r.dpto_cnmbr) ∧
    (1 ≤ r.num_Pacientes ↔
      ∃ p ∈ df_filtrado (normalizeDf df) diagnostico_sel genero_sel,
        p.departamento = r.dpto_cnmbr) := by
  rw [pipeline_eq_map] at hr
  obtain ⟨b, _, hbr⟩ := List.mem_map.mp hr
  cases hf : (df_grouped (df_filtrado (normalizeDf df) diagnostico_sel
      genero_sel)).find? (fun a => a.departamento = b.dpto_cnmbr) with
  | none =>
    rw [hf] at hbr
    subst hbr
    have hnone := find_agg_eq_none_iff.mp hf
    constructor
    · simpa using hnone
    · simp only [Option.elim]
      constructor
      · intro h; omega
      · rintro ⟨p, hp, hpd⟩
        exact absurd hpd (hnone p hp)
  | some a =>
    have hak : a.departamento = b.dpto_cnmbr := by
      simpa using List.find?_some hf
    have hmem := List.mem_of_find?_eq_some hf
    obtain ⟨p, hp, hpd⟩ := df_grouped_key_mem hmem
    have hpos := df_grouped_count_pos hmem
    rw [hf] at hbr
    subst hbr
    constructor
    · simp only [Option.elim]
      constructor
      · intro h; omega
      · intro h
        exact absurd (hpd.trans hak) (h p hp)
    · simp only [Option.elim]
      constructor
      · intro _
        exact ⟨p, hp, hpd.trans hak⟩
      · intro _
        exact hpos

/-- With both selectors on the sentinel, filtering keeps every row. -/
lemma df_filtrado_sentinel (df : List Patient) :
    df_filtrado df "Todos" "Todos" = df := rfl

/-- Composing the diagnosis/gender filters with the per-department filter of
the grouping step matches one combined filter on the raw table. -/
lemma df_filtrado_filter_dept (df : List Patient) (d g x : String)
    (hd : d ≠ "Todos") :
    (df_filtrado df d g).filter (fun p => p.departamento = x) =
      df.filter (fun p =>
        p.departamento = x ∧ p.diagnostico = d ∧
          (g = "Todos" ∨ p.genero = g)) := by
  unfold df_filtrado
  by_cases hg : g = "Todos"
  · simp only [hd, hg, ne_eq, not_true_eq_false, if_neg, if_pos, not_false_eq_true]
    rw [List.filter_filter]
    refine List.filter_congr ?_
    intro p _
    by_cases h1 : p.departamento = x <;> by_cases h2 : p.diagnostico = d <;>
      simp [h1, h2, hg]
  · simp only [hd, hg, ne_eq, not_false_eq_true, if_pos]
    rw [List.filter_filter, List.filter_filter]
    refine List.filter_congr ?_
    intro p _
    by_cases h1 : p.departamento = x <;> by_cases h2 : p.diagnostico = d <;>
      by_cases h3 : p.genero = g <;> simp [h1, h2, h3, hg]

/-! Concrete evaluations of the scenario. The division in the mean columns
does not reduce inside the kernel, so these are established once with
`norm_num` and reused below. -/

/-- Grouping the unfiltered scenario table. -/
lemma scenTodosGrouped :
    df_grouped (df_filtrado scenDf "Todos" "Todos") =
      [⟨"CUNDINAMARCA", 2, 40, 7/2⟩] := by
  norm_num [df_grouped, groupKeys, df_filtrado, scenDf, AggRow.mk.injEq,
    List.filter]

/-- Grouping the scenario table filtered to diagnosis `"Asma"`. -/
lemma scenAsmaGrouped :
    df_grouped (df_filtrado scenDf "Asma" "Todos") =
      [⟨"CUNDINAMARCA", 1, 30, 2⟩] := by
  norm_num [df_grouped, groupKeys, df_filtrado, scenDf, AggRow.mk.injEq,
    List.filter]

/-- The pipeline on the scenario tables with both filters on the sentinel. -/
lemma scenPipelineTodos :
    pipeline scenDf scenGdf "Todos" "Todos" =
      [⟨"CUNDINAMARCA", "G1", 2, 40, 7/2⟩, ⟨"META", "G2", 0, 0, 0⟩] := by
  show fillZero (gdf_merge (normalizeGdf scenGdf)
    (df_grouped (df_filtrado (normalizeDf scenDf) "Todos" "Todos"))) = _
  rw [show normalizeDf scenDf = scenDf from rfl,
    show normalizeGdf scenGdf = scenGdf from rfl, scenTodosGrouped]
  rfl

/-- The pipeline on the scenario tables with the diagnosis filter `"Asma"`. -/
lemma scenPipelineAsma :
    pipeline scenDf scenGdf "Asma" "Todos" =
      [⟨"CUNDINAMARCA", "G1", 1, 30, 2⟩, ⟨"META", "G2", 0, 0, 0⟩] := by
  show fillZero (gdf_merge (normalizeGdf scenGdf)
    (df_grouped (df_filtrado (normalizeDf scenDf) "Asma" "Todos"))) = _
  rw [show normalizeDf scenDf = scenDf from rfl,
    show normalizeGdf scenGdf = scenGdf from rfl, scenAsmaGrouped]
  rfl

/-- C3 (filter correctness): for a diagnosis selection other than the
sentinel, the grouped aggregate's patient count for a department equals the
number of table rows with that department and that diagnosis (and, when the
gender selection is not the sentinel, that gender). -/
theorem filter_correctness (df : List Patient) (d g x : String)
    (hd : d ≠ "Todos") (a : AggRow)
    (ha : a ∈ df_grouped (df_filtrado df d g)) (hx : a.departamento = x) :
    a.num_Pacientes =
      (df.filter (fun p =>
        p.departamento = x ∧ p.diagnostico = d ∧
          (g = "Todos" ∨ p.genero = g))).length := by
  rw [df_grouped_count ha, hx, df_filtrado_filter_dept df d g x hd]

/-- Witness for C3 at the scenario table with diagnosis `"Asma"`. -/
theorem filter_correctness_witness :
    ("Asma" : String) ≠ "Todos" ∧
    (⟨"CUNDINAMARCA", 1, 30, 2⟩ : AggRow) ∈
      df_grouped (df_filtrado scenDf "Asma" "Todos") ∧
    (⟨"CUNDINAMARCA", 1, 30, 2⟩ : AggRow).num_Pacientes =
      (scenDf.filter (fun p =>
        p.departamento = "CUNDINAMARCA" ∧ p.diagnostico = "Asma" ∧
          (("Todos" : String) = "Todos" ∨ p.genero = "Todos"))).length :=
  ⟨by decide,
   by rw [scenAsmaGrouped]; exact List.mem_cons_self _ _,
   filter_correctness scenDf "Asma" "Todos" "CUNDINAMARCA" (by decide) _
     (by rw [scenAsmaGrouped]; exact List.mem_cons_self _ _) rfl⟩

/-- C4 (scenario correctness): on the spec's concrete tables, the pipeline
with both filters on the sentinel yields the Cundinamarca row with count 2,
mean age 40 and mean visits 7/2 plus the zero-filled Meta row; with the
diagnosis filter `"Asma"` it yields count 1, mean age 30, mean visits 2 for
Cundinamarca and the zero-filled Meta row. -/
theorem scenario_correctness :
    pipeline scenDf scenGdf "Todos" "Todos" =
      [⟨"CUNDINAMARCA", "G1", 2, 40, 7/2⟩, ⟨"META", "G2", 0, 0, 0⟩] ∧
    pipeline scenDf scenGdf "Asma" "Todos" =
      [⟨"CUNDINAMARCA", "G1", 1, 30, 2⟩, ⟨"META", "G2", 0, 0, 0⟩] :=
  ⟨scenPipelineTodos, scenPipelineAsma⟩

/-- C5 (case-insensitive key matching): a boundary row and a patient row
whose department names agree after uppercasing still join — with no filter
selected, the joined document has a row for that boundary carrying the
normalized name and a patient count of at least 1. -/
theorem case_insensitive_matching (df : List Patient) (gdf : List Boundary)
    (p : Patient) (b : Boundary) (hp : p ∈ df) (hb : b ∈ gdf)
    (h : upper p.departamento = upper b.dpto_cnmbr) :
    (∃ r ∈ pipeline df gdf "Todos" "Todos",
      r.dpto_cnmbr = upper b.dpto_cnmbr ∧ 1 ≤ r.num_Pacientes) ∧
    (∀ r ∈ pipeline df gdf "Todos" "Todos", 1 ≤ r.num_Pacientes →
      ∃ q ∈ df, upper q.departamento = r.dpto_cnmbr) := by
  refine ⟨?_, ?_⟩
  case refine_2 =>
    intro r hr hcount
    rw [pipeline_eq_map] at hr
    obtain ⟨c, _, hcr⟩ := List.mem_map.mp hr
    cases hf : (df_grouped (df_filtrado (normalizeDf df) "Todos"
        "Todos")).find? (fun a => a.departamento = c.dpto_cnmbr) with
    | none =>
      rw [hf] at hcr
      subst hcr
      exact absurd hcount (by simp)
    | some a =>
      have hak : a.departamento = c.dpto_cnmbr := by
        simpa using List.find?_some hf
      obtain ⟨q, hq, hqd⟩ :=
        df_grouped_key_mem (List.mem_of_find?_eq_some hf)
      rw [df_filtrado_sentinel] at hq
      obtain ⟨q₀, hq₀, rfl⟩ := List.mem_map.mp hq
      rw [hf] at hcr
      subst hcr
      exact ⟨q₀, hq₀, hqd.trans hak⟩
  rw [pipeline_eq_map]
  have hbn : ({ dpto_cnmbr := upper b.dpto_cnmbr, geometry := b.geometry } :
      Boundary) ∈ normalizeGdf gdf := List.mem_map_of_mem _ hb
  cases hf : (df_grouped (df_filtrado (normalizeDf df) "Todos" "Todos")).find?
      (fun a => a.departamento = upper b.dpto_cnmbr) with
  | none =>
    exfalso
    refine find_agg_eq_none_iff.mp hf
      { p with departamento := upper p.departamento } ?_ h
    rw [df_filtrado_sentinel]
    exact List.mem_map_of_mem _ hp
  | some a =>
    refine ⟨_, List.mem_map.mpr ⟨_, hbn, rfl⟩, ?_, ?_⟩
    · dsimp only
      rw [hf]
      rfl
    · dsimp only
      rw [hf]
      exact df_grouped_count_pos (List.mem_of_find?_eq_some hf)

/-- Witness for C5: boundary `"Antioquia"` and patient `"ANTIOQUIA"` join. -/
theorem case_insensitive_matching_witness :
    (⟨7, "ANTIOQUIA", 41, "Otro", "Asma", 3⟩ : Patient) ∈ mixDf ∧
    (⟨"Antioquia", "GA"⟩ : Boundary) ∈ mixGdf ∧
    upper "ANTIOQUIA" = upper "Antioquia" ∧
    ((∃ r ∈ pipeline mixDf mixGdf "Todos" "Todos",
        r.dpto_cnmbr = upper "Antioquia" ∧ 1 ≤ r.num_Pacientes) ∧
     (∀ r ∈ pipeline mixDf mixGdf "Todos" "Todos", 1 ≤ r.num_Pacientes →
        ∃ q ∈ mixDf, upper q.departamento = r.dpto_cnmbr)) :=
  ⟨List.mem_cons_self _ _, List.mem_cons_self _ _, by decide,
   case_insensitive_matching mixDf mixGdf
     ⟨7, "ANTIOQUIA", 41, "Otro", "Asma", 3⟩ ⟨"Antioquia", "GA"⟩
     (List.mem_cons_self _ _) (List.mem_cons_self _ _) (by decide)⟩

/-- C6 (disjoint-key success): when no patient department coincides with any
boundary department (after normalization), the pipeline still returns a
document with one row per boundary, all three numeric fields zero. -/
theorem disjoint_keys_success (df : List Patient) (gdf : List Boundary)
    (diagnostico_sel genero_sel : String)
    (h : ∀ p ∈ df, ∀ b ∈ gdf, upper p.departamento ≠ upper b.dpto_cnmbr) :
    pipeline df gdf diagnostico_sel genero_sel = gdf.map (fun b =>
      { dpto_cnmbr := upper b.dpto_cnmbr, geometry := b.geometry,
        num_Pacientes := 0, edad := 0, frecuencia_Visitas := 0 }) := by
  rw [pipeline_eq_map]
  unfold normalizeGdf
  rw [List.map_map]
  refine List.map_congr_left ?_
  intro b hb
  have hnone : (df_grouped (df_filtrado (normalizeDf df) diagnostico_sel
      genero_sel)).find? (fun a => a.departamento = upper b.dpto_cnmbr) =
      none := by
    rw [find_agg_eq_none_iff]
    intro q hq hqk
    obtain ⟨p, hp, rfl⟩ := List.mem_map.mp (mem_df_filtrado hq)
    exact h p hp b hb hqk
  simp [Function.comp, hnone]

/-- Witness for C6: the scenario patients against a boundary table holding
only Meta. -/
theorem disjoint_keys_success_witness :
    (∀ p ∈ scenDf, ∀ b ∈ ([⟨"META", "G2"⟩] : List Boundary),
      upper p.departamento ≠ upper b.dpto_cnmbr) ∧
    pipeline scenDf [⟨"META", "G2"⟩] "Todos" "Todos" =
      ([⟨"META", "G2"⟩] : List Boundary).map (fun b =>
        { dpto_cnmbr := upper b.dpto_cnmbr, geometry := b.geometry,
          num_Pacientes := 0, edad := 0, frecuencia_Visitas := 0 }) :=
  ⟨by decide,
   disjoint_keys_success scenDf [⟨"META", "G2"⟩] "Todos" "Todos" (by decide)⟩

/-- C7 (empty-group absence): a department with no row left after filtering
is absent from the grouped aggregate altogether, and after the left join
every document row with that department carries the zero defaults. -/
theorem empty_group_absent (df : List Patient) (gdf : List Boundary)
    (diagnostico_sel genero_sel x : String)
    (h : ∀ p ∈ df_filtrado df diagnostico_sel genero_sel,
      p.departamento ≠ x) :
    (∀ a ∈ df_grouped (df_filtrado df diagnostico_sel genero_sel),
      a.departamento ≠ x) ∧
    (∀ r ∈ fillZero (gdf_merge gdf
        (df_grouped (df_filtrado df diagnostico_sel genero_sel))),
      r.dpto_cnmbr = x →
        r.num_Pacientes = 0 ∧ r.edad = 0 ∧ r.frecuencia_Visitas = 0) := by
  constructor
  · intro a ha hax
    obtain ⟨p, hp, hpd⟩ := df_grouped_key_mem ha
    exact h p hp (hpd.trans hax)
  · intro r hr hrx
    rw [gdf_merge_eq_map (df_grouped_keys_nodup _)] at hr
    unfold fillZero at hr
    rw [List.map_map] at hr
    obtain ⟨b, _, hbr⟩ := List.mem_map.mp hr
    cases hf : (df_grouped (df_filtrado df diagnostico_sel genero_sel)).find?
        (fun a => a.departamento = b.dpto_cnmbr) with
    | none =>
      rw [Function.comp_apply, hf] at hbr
      subst hbr
      simp
    | some a =>
      exfalso
      have hak : a.departamento = b.dpto_cnmbr := by
        simpa using List.find?_some hf
      obtain ⟨p, hp, hpd⟩ :=
        df_grouped_key_mem (List.mem_of_find?_eq_some hf)
      rw [Function.comp_apply, hf] at hbr
      subst hbr
      simp only [Option.elim] at hrx
      exact h p hp (hpd.trans (hak.trans hrx))

/-- Witness for C7: after filtering to `"Asma"`, Meta has no patient row. -/
theorem empty_group_absent_witness :
    (∀ p ∈ df_filtrado scenDf "Asma" "Todos", p.departamento ≠ "META") ∧
    ((∀ a ∈ df_grouped (df_filtrado scenDf "Asma" "Todos"),
        a.departamento ≠ "META") ∧
     (∀ r ∈ fillZero (gdf_merge scenGdf
          (df_grouped (df_filtrado scenDf "Asma" "Todos"))),
        r.dpto_cnmbr = "META" →
          r.num_Pacientes = 0 ∧ r.edad = 0 ∧ r.frecuencia_Visitas = 0)) :=
  ⟨by decide,
   empty_group_absent scenDf scenGdf "Asma" "Todos" "META" (by decide)⟩

/-- Witness for C2: the Meta row of the scenario is zero-filled. -/
theorem default_fill_witness :
    (⟨"META", "G2", 0, 0, 0⟩ : FinalRow) ∈
      pipeline scenDf scenGdf "Todos" "Todos" ∧
    (∀ p ∈ df_filtrado (normalizeDf scenDf) "Todos" "Todos",
      p.departamento ≠ (⟨"META", "G2", 0, 0, 0⟩ : FinalRow).dpto_cnmbr) ∧
    ((⟨"META", "G2", 0, 0, 0⟩ : FinalRow).num_Pacientes = 0 ∧
     (⟨"META", "G2", 0, 0, 0⟩ : FinalRow).edad = 0 ∧
     (⟨"META", "G2", 0, 0, 0⟩ : FinalRow).frecuencia_Visitas = 0) :=
  ⟨by rw [scenPipelineTodos]
      exact List.mem_cons_of_mem _ (List.mem_cons_self _ _),
   by decide,
   default_fill scenDf scenGdf "Todos" "Todos" _
     (by rw [scenPipelineTodos]
         exact List.mem_cons_of_mem _ (List.mem_cons_self _ _))
     (by decide)⟩

/-- Witness for C10: under the `"Asma"` filter, the Meta row's zero count
marks it as unmatched. -/
theorem count_discrimination_witness :
    (⟨"META", "G2", 0, 0, 0⟩ : FinalRow) ∈
      pipeline scenDf scenGdf "Asma" "Todos" ∧
    (((⟨"META", "G2", 0, 0, 0⟩ : FinalRow).num_Pacientes = 0 ↔
        ∀ p ∈ df_filtrado (normalizeDf scenDf) "Asma" "Todos",
          p.departamento = (⟨"META", "G2", 0, 0, 0⟩ : FinalRow).dpto_cnmbr →
            False) ∧
     (1 ≤ (⟨"META", "G2", 0, 0, 0⟩ : FinalRow).num_Pacientes ↔
        ∃ p ∈ df_filtrado (normalizeDf scenDf) "Asma" "Todos",
          p.departamento = (⟨"META", "G2", 0, 0, 0⟩ : FinalRow).dpto_cnmbr)) :=
  ⟨by rw [scenPipelineAsma]
      exact List.mem_cons_of_mem _ (List.mem_cons_self _ _),
   count_discrimination scenDf scenGdf "Asma" "Todos" _
     (by rw [scenPipelineAsma]
         exact List.mem_cons_of_mem _ (List.mem_cons_self _ _))⟩

end AppPy
